import Mathlib

/-!
Shallow embedding of the transaction-normalization service in `app.py`
(single-module FastAPI app: column detection, amount resolution, date/month
derivation, categorization, aggregation, and the upload/query endpoints).
Machine floats are modelled as rationals; pandas cells are modelled by an
explicit `Cell` type with a `null` (NaN) value.
-/

namespace FinApp

/-- A cell of the raw table: a missing value (NaN), a number, or a string. -/
inductive Cell where
  | null
  | num (q : Rat)
  | str (s : String)
deriving DecidableEq, Repr

/-- Lower-casing of a string, character by character (models Python `str.lower`
on the ASCII column names and descriptions this program works with). -/
def strLower (s : String) : String :=
  String.mk (s.toList.map Char.toLower)

/-- Strip leading and trailing whitespace (models Python `str.strip` /
pandas `str.strip`). -/
def strTrim (s : String) : String :=
  String.mk (((s.toList.dropWhile Char.isWhitespace).reverse.dropWhile Char.isWhitespace).reverse)

/-- Substring test on character lists: does `pat` occur contiguously in `s`? -/
def listSub (pat : List Char) : List Char → Bool
  | [] => pat.isEmpty
  | c :: t => pat.isPrefixOf (c :: t) || listSub pat t

/-- Substring containment, models the Python expression `pat in s`. -/
def containsSub (s pat : String) : Bool :=
  listSub pat.toList s.toList

/-- `categorize` from app.py lines 35-51: ordered keyword decision list
over the lower-cased description, first match wins, default "Others",
and a `None` description maps to "Others". -/
def categorize (desc : Option String) : String :=
  match desc with
  | none => "Others"
  | some d0 =>
    let d := strLower d0
    if containsSub d "salary" then "Income"
    else if containsSub d "fuel" || containsSub d "diesel" then "Fuel"
    else if containsSub d "zomato" || containsSub d "swiggy" || containsSub d "restaurant" then "Food"
    else if containsSub d "amazon" || containsSub d "flipkart" then "Shopping"
    else if containsSub d "mutual fund" || containsSub d "sip" then "Investments"
    else if containsSub d "upi" || containsSub d "transfer" || containsSub d "google pay" || containsSub d "gpay" then "Transfers"
    else "Others"

/-- The exact-name description vocabulary of app.py line 59. -/
def descVocab : List String :=
  ["description", "narration", "details", "remarks", "particulars"]

/-- `_detect_columns` from app.py lines 54-77: returns the detected
(description, amount, date) column names, each `none` when no candidate
exists.  Candidate order follows the column order of the table. -/
def _detect_columns (cols0 : List String) : Option String × Option String × Option String :=
  let cols := cols0.map strTrim
  let descCands := cols.filter (fun c => descVocab.contains (strLower c))
  let descCands :=
    if descCands.isEmpty then
      match cols.find? (fun c =>
          containsSub (strLower c) "desc" || containsSub (strLower c) "narr" ||
          containsSub (strLower c) "particular") with
      | some c => [c]
      | none => []
    else descCands
  let amtCands := cols.filter (fun c =>
    containsSub (strLower c) "amount" ||
    ["amount", "amt", "value", "debit", "credit"].contains (strLower c))
  let amtCands :=
    if amtCands.isEmpty then
      match cols.find? (fun c =>
          containsSub (strLower c) "amt" || containsSub (strLower c) "debit" ||
          containsSub (strLower c) "credit" || containsSub (strLower c) "balance") with
      | some c => [c]
      | none => []
    else amtCands
  let dateCands := cols.filter (fun c =>
    containsSub (strLower c) "date" || containsSub (strLower c) "txn date" ||
    containsSub (strLower c) "transaction date")
  (descCands.head?, amtCands.head?, dateCands.head?)

/-- Value of a digit list in base 10. -/
def digitsToNat (l : List Char) : Nat :=
  l.foldl (fun n c => n * 10 + (c.toNat - 48)) 0

/-- Parse an unsigned decimal literal (digits with an optional fractional
part), the numeric strings accepted by pandas `to_numeric`. -/
def parseUnsigned (l : List Char) : Option Rat :=
  let ip := l.takeWhile (fun c => c != '.')
  let rest := l.drop ip.length
  match rest with
  | [] =>
    if ip.all Char.isDigit && !ip.isEmpty then some ((digitsToNat ip : Nat) : Rat) else none
  | _ :: frac =>
    if frac.contains '.' then none
    else if ip.all Char.isDigit && frac.all Char.isDigit && !(ip.isEmpty && frac.isEmpty) then
      some ((digitsToNat ip : Nat) + (digitsToNat frac : Nat) / ((10 : Rat) ^ frac.length))
    else none

/-- Parse a signed decimal string; whitespace is stripped first.  Models the
string case of pandas `to_numeric(..., errors="coerce")`: an unparseable
string yields a missing value. -/
def parseNum (s : String) : Option Rat :=
  match (strTrim s).toList with
  | [] => none
  | '-' :: rest => (parseUnsigned rest).map (fun q => -q)
  | '+' :: rest => parseUnsigned rest
  | l => parseUnsigned l

/-- `pd.to_numeric(cell, errors="coerce")` on one cell: numbers pass through,
strings are parsed, missing stays missing. -/
def toNumeric : Cell → Option Rat
  | .null => none
  | .num q => some q
  | .str s => parseNum s

/-- Cell of `row` under the column named `c` (first occurrence in `cols`);
a name that is not a column yields a missing value. -/
def getCell (cols : List String) (row : List Cell) (c : String) : Cell :=
  match cols.findIdx? (fun x => x == c) with
  | some i => row.getD i Cell.null
  | none => Cell.null

/-- `str(cell)` after `fillna("")` (app.py line 101): missing becomes the
empty string; a numeric cell is rendered as a numeral. -/
def cellToStr : Cell → String
  | .null => ""
  | .str s => s
  | .num q =>
    if q.den == 1 then (if q.num < 0 then "-" ++ toString q.num.natAbs else toString q.num.natAbs)
    else toString q.num ++ "/" ++ toString q.den

/-- The column kept by the loop of app.py lines 109-112: the LAST column
whose lower-cased name is exactly "debit" (the loop keeps reassigning). -/
def debitColOf (cols : List String) : Option String :=
  cols.foldl (fun acc c => if strLower c == "debit" then some c else acc) none

/-- The column kept by the loop of app.py lines 109-114 for "credit". -/
def creditColOf (cols : List String) : Option String :=
  cols.foldl (fun acc c => if strLower c == "credit" then some c else acc) none

/-- Amount resolution, app.py lines 101-118: coerce the detected amount
column; if exact debit and credit columns both exist and the coerced
primary column is entirely missing, recompute as credit minus debit with
missing cells as 0; finally any remaining missing value becomes 0. -/
def resolveAmounts (cols : List String) (rows : List (List Cell)) (amtCol : String) : List Rat :=
  let primary : List (Option Rat) := rows.map (fun r => toNumeric (getCell cols r amtCol))
  let amount1 : List (Option Rat) :=
    match debitColOf cols, creditColOf cols with
    | some dc, some cc =>
      if primary.all Option.isNone then
        rows.map (fun r =>
          some ((toNumeric (getCell cols r cc)).getD 0 - (toNumeric (getCell cols r dc)).getD 0))
      else primary
    | _, _ => primary
  amount1.map (fun o => o.getD 0)

/-- Model of `pd.to_datetime(cell, errors="coerce")` restricted to the
year and month: ISO `YYYY-MM-DD` strings parse, everything else is
treated as unparseable (NaT). -/
def parseIsoDate (s : String) : Option (Nat × Nat) :=
  match (strTrim s).toList with
  | [y1, y2, y3, y4, '-', m1, m2, '-', d1, d2] =>
    if [y1, y2, y3, y4, m1, m2, d1, d2].all Char.isDigit then
      let y := digitsToNat [y1, y2, y3, y4]
      let m := digitsToNat [m1, m2]
      let d := digitsToNat [d1, d2]
      if 1 ≤ m ∧ m ≤ 12 ∧ 1 ≤ d ∧ d ≤ 31 then some (y, m) else none
    else none
  | _ => none

/-- Date parsing of one cell (only string cells carry dates in this model). -/
def toDatetime : Cell → Option (Nat × Nat)
  | .str s => parseIsoDate s
  | _ => none

/-- Zero-pad a numeral to `width` digits. -/
def padNum (v width : Nat) : String :=
  let s := toString v
  String.mk (List.replicate (width - s.toList.length) '0' ++ s.toList)

/-- `strftime("%Y-%m")` on a parsed date. -/
def monthFmt (ym : Nat × Nat) : String :=
  padNum ym.1 4 ++ "-" ++ padNum ym.2 2

/-- The literal date-column scan of app.py lines 126-132. -/
def dateFallbackCol (cols : List String) : Option String :=
  ["Date", "date", "Txn Date", "Transaction Date"].find? (fun cand => cols.contains cand)

/-- Month derivation, app.py lines 120-138: parse the detected date column
(falling back to a literally-named date column), then format each parsed
date as `YYYY-MM`; rows with no parseable date get no month, and when no
date column exists at all every month is `none` (the `df["Month"] = None`
branch). -/
def deriveMonths (cols : List String) (rows : List (List Cell)) (dateCol? : Option String) :
    List (Option String) :=
  let dc? : Option String :=
    match dateCol? with
    | some dc => if cols.contains dc then some dc else dateFallbackCol cols
    | none => dateFallbackCol cols
  match dc? with
  | some dc => rows.map (fun r => (toDatetime (getCell cols r dc)).map monthFmt)
  | none => rows.map (fun _ => none)

/-- Sum of the values attached to key `k` in the keyed list `l`. -/
def fiberSum (l : List (String × Rat)) (k : String) : Rat :=
  ((l.filter (fun p => p.1 == k)).map Prod.snd).sum

/-- Model of `df.groupby(key)["Amount"].sum().to_dict()`: one entry per
distinct key, holding the sum of the values carrying that key. -/
def groupSum (l : List (String × Rat)) : List (String × Rat) :=
  ((l.map Prod.fst).dedup).map (fun k => (k, fiberSum l k))

/-- The per-row (month, amount) pairs that enter the monthly groupby: rows
whose month is missing are dropped (pandas groupby drops NaN keys). -/
def monthPairs (months : List (Option String)) (amounts : List Rat) : List (String × Rat) :=
  (months.zip amounts).filterMap (fun ma => ma.1.map (fun m => (m, ma.2)))

/-- The canonical per-row data of the processed dataframe. -/
structure CanonDF where
  descriptions : List String
  amounts : List Rat
  months : List (Option String)
  categories : List String
deriving DecidableEq, Repr

/-- The summary object returned by `process_transactions` (app.py 148-155). -/
structure Summary where
  total_income : Rat
  total_expense : Rat
  net_balance : Rat
  monthly_summary : List (String × Rat)
  category_summary : List (String × Rat)
  rows : Nat
deriving DecidableEq, Repr

/-- The `ValueError`s that `process_transactions` can raise, with the data
interpolated into each message.  `categoryReplaceBug` stands for the pandas
`ValueError` raised by line 144 (`Series.replace` rejects a Series value
with a non-None scalar `to_replace`), and `readFailed` for line 90. -/
inductive ProcError where
  | readFailed
  | emptyFile
  | missingColumns (found : List String)
  | categoryReplaceBug
deriving DecidableEq, Repr

/-- The raw table parsed from the uploaded file: column names in order and
rows of cells aligned with the columns. -/
structure RawTable where
  cols : List String
  rows : List (List Cell)
deriving DecidableEq, Repr

/-- The pure tail of `process_transactions` (app.py lines 101-155) once both
required columns are detected and the Category branch is not taken:
canonical columns plus the summary. -/
def buildOut (cols : List String) (rows : List (List Cell)) (d a : String)
    (dateCol? : Option String) : CanonDF × Summary :=
  let descriptions := rows.map (fun r => cellToStr (getCell cols r d))
  let amounts := resolveAmounts cols rows a
  let months := deriveMonths cols rows dateCol?
  let monthly_summary := groupSum (monthPairs months amounts)
  let categories := descriptions.map (fun s => categorize (some s))
  let category_summary := groupSum (categories.zip amounts)
  (⟨descriptions, amounts, months, categories⟩,
   ⟨((amounts.filter (fun q => decide (0 < q))).sum),
    ((amounts.filter (fun q => decide (q < 0))).sum),
    amounts.sum,
    monthly_summary,
    category_summary,
    rows.length⟩)

/-- `process_transactions` from app.py lines 83-157, starting from the parsed
table (file reading is handled by the caller flag `readOk`): reject an
empty table, strip column names, detect the description and amount columns
(error listing every column name when one is missing), then build the
canonical data and summary.  When the table has a `Category` column,
line 144 calls `Series.replace("", Series)`, which pandas rejects with a
`ValueError` before any value is replaced; that exception is modelled by
`ProcError.categoryReplaceBug` (all the computation before that line is
pure, so raising at this point is equivalent to the source order). -/
def process_transactions (t : RawTable) : Except ProcError (CanonDF × Summary) :=
  if t.rows.isEmpty || t.cols.isEmpty then .error .emptyFile
  else
    let cols := t.cols.map strTrim
    let det := _detect_columns cols
    match det.1, det.2.1 with
    | some d, some a =>
      if cols.contains "Category" then .error .categoryReplaceBug
      else .ok (buildOut cols t.rows d a det.2.2)
    | _, _ => .error (.missingColumns cols)

/-- HTTP-level outcome of an endpoint: a success payload, or an
`HTTPException(status_code, detail)`. -/
inductive HResp (α : Type) where
  | ok (val : α)
  | err (status : Nat) (detail : String)
deriving DecidableEq, Repr

/-- Whether a response is a success. -/
def respIsOk {α : Type} : HResp α → Bool
  | .ok _ => true
  | .err _ _ => false

/-- The error status of a response, `none` on success. -/
def respStatus {α : Type} : HResp α → Option Nat
  | .ok _ => none
  | .err s _ => some s

/-- Two-argument `os.path.join` on a POSIX system: an absolute second
component discards the first, otherwise the parts are joined with a slash. -/
def joinPath (a b : String) : String :=
  match b.toList with
  | '/' :: _ => b
  | _ => a ++ "/" ++ b

/-- Does `s` end with `suf`?  Models Python `str.endswith`. -/
def endsWithStr (s suf : String) : Bool :=
  suf.toList.reverse.isPrefixOf s.toList.reverse

/-- The extension gate of app.py line 231. -/
def hasAllowedExt (filename : String) : Bool :=
  [".xlsx", ".xls", ".csv"].any (fun ext => endsWithStr (strLower filename) ext)

/-- The path the upload handler writes to (app.py lines 230 and 235):
`os.path.join("uploads", filename)` with the client-supplied filename taken
verbatim, defaulting to the literal name `uploaded_file`. -/
def savePathOf (filename? : Option String) : String :=
  joinPath "uploads" (filename?.getD "uploaded_file")

/-- Rendering of the column list inside the missing-columns message
(Python string quotes around each name are omitted in this model). -/
def listRepr (l : List String) : String :=
  "[" ++ String.intercalate ", " l ++ "]"

/-- The `str(...)` of each `ValueError` that `process_transactions` raises
(the upload handler puts it into the 400 detail). -/
def procErrorMsg : ProcError → String
  | .readFailed => "Failed to read file"
  | .emptyFile => "Uploaded file contains no data."
  | .missingColumns found =>
      "Could not detect required columns. Found columns: " ++ listRepr found ++
      ". Need Description-like and Amount-like columns."
  | .categoryReplaceBug => "Series.replace cannot use dict-value and non-None to_replace"

/-- One upload request: the (optional) client filename, the table the
uploaded bytes parse to, and flags for the three fallible effects — whether
`pd.read_csv` or `pd.read_excel` succeeds, whether writing `uploads/<name>`
succeeds, and whether `df.to_pickle("transactions.pkl")` succeeds. -/
structure UploadReq where
  filename : Option String
  table : RawTable
  readOk : Bool
  saveOk : Bool
  pickleOk : Bool
deriving DecidableEq, Repr

/-- Observable outcome of one upload: the HTTP response, the dataset store
(`transactions.pkl`) after the request, and the path written under the
uploads directory (`none` when no file was written). -/
structure UploadOut where
  resp : HResp Summary
  store : Option CanonDF
  written : Option String
deriving DecidableEq, Repr

/-- `upload_excel` from app.py lines 228-256: extension gate, save of the
raw bytes, processing (a `ValueError` becomes a 400, other processing
failures a 500 — unreachable here since every modelled failure is a
`ValueError`), then persistence of the canonical dataframe.  A `to_pickle`
failure is caught, logged and swallowed (lines 251-254), so the handler
still reports success while the store keeps its previous content. -/
def upload_excel (req : UploadReq) (store0 : Option CanonDF) : UploadOut :=
  let filename := req.filename.getD "uploaded_file"
  if !(hasAllowedExt filename) then
    ⟨.err 400 "Unsupported file type. Upload .xlsx, .xls, or .csv", store0, none⟩
  else if !req.saveOk then
    ⟨.err 500 "Failed to save uploaded file", store0, none⟩
  else
    let path := savePathOf req.filename
    match (if req.readOk then process_transactions req.table else .error .readFailed) with
    | .error e => ⟨.err 400 (procErrorMsg e), store0, some path⟩
    | .ok (df, summary) =>
      if req.pickleOk then ⟨.ok summary, some df, some path⟩
      else ⟨.ok summary, store0, some path⟩

/-- Behaviour of the remote Q&A collaborator for one call: the textual
answer extracted from the completion, or a raised exception message. -/
inductive LLMOutcome where
  | answer (s : String)
  | failure (msg : String)
deriving DecidableEq, Repr

/-- The RuntimeError message of app.py lines 165-168. -/
def notConfiguredMsg : String :=
  "Groq API key or model not configured. Set GROQ_API_KEY and GROQ_MODEL in your environment. See https://console.groq.com/docs/deprecations for supported models."

/-- `ask_ai` from app.py lines 163-222: raise when the credential or the
model identifier is unconfigured; otherwise forward the collaborator
answer, classifying a raised fault as "decommissioned model" when its
message matches, else wrapping it generically.  (Prompt construction and
the 35000-character payload bound do not affect the returned value and are
not modelled.) -/
def ask_ai (credOk modelOk : Bool) (llm : LLMOutcome) (_df : CanonDF) (_question : String) :
    Except String String :=
  if !credOk || !modelOk then .error notConfiguredMsg
  else
    match llm with
    | .answer s => .ok s
    | .failure msg =>
      if containsSub (strLower msg) "decommission" ||
         containsSub (strLower msg) "model_decommissioned" then
        .error ("Configured Groq model appears decommissioned. Update GROQ_MODEL to a supported model (see https://console.groq.com/docs/deprecations). Original error: " ++ msg)
      else .error ("LLM request failed: " ++ msg)

/-- `query_financial` from app.py lines 259-280: 503 when the credential is
unconfigured (checked first), 404 when no dataset has been stored by a
prior upload, 500 when the stored pickle cannot be read back, 502 for any
`RuntimeError` out of `ask_ai` (which covers the unconfigured-model case),
and on success the question echoed back with the answer. -/
def query_financial (credOk modelOk : Bool) (store : Option CanonDF) (storeReadOk : Bool)
    (llm : LLMOutcome) (question : String) : HResp (String × String) :=
  if !credOk then .err 503 "Groq API key not configured on server."
  else
    match store with
    | none => .err 404 "No processed transactions found. Upload first."
    | some df =>
      if !storeReadOk then .err 500 "Failed to load saved transactions"
      else
        match ask_ai credOk modelOk llm df question with
        | .error msg => .err 502 msg
        | .ok answer => .ok (question, answer)

/-- Split a path into its slash-separated segments (helper for stating
where a written path actually lands). -/
def splitSlashAux : List Char → List Char → List String
  | [], acc => [String.mk acc.reverse]
  | '/' :: rest, acc => String.mk acc.reverse :: splitSlashAux rest []
  | c :: rest, acc => splitSlashAux rest (c :: acc)

/-- Split a path on slashes. -/
def splitSlash (s : String) : List String :=
  splitSlashAux s.toList []

/-- POSIX-style lexical normalization of path segments: drop `.` and empty
segments and resolve `..` against the preceding segment. -/
def normSegs (segs : List String) : List String :=
  segs.foldl (fun acc seg =>
    if seg == "." || seg == "" then acc
    else if seg == ".." then
      (if acc ≠ [] ∧ acc.getLast? ≠ some ".." then acc.dropLast else acc ++ [".."])
    else acc ++ [seg]) []

/-! ### Concrete tables used by the claims and their witnesses -/

/-- Scenario A of the spec: Narration/Amount table. -/
def tableA : RawTable :=
  ⟨["Narration", "Amount"],
   [[.str "SALARY CREDIT", .num 50000], [.str "ZOMATO ORDER", .num (-450)]]⟩

/-- The canonical dataframe `process_transactions` produces for `tableA`. -/
def canonA : CanonDF :=
  ⟨["SALARY CREDIT", "ZOMATO ORDER"], [50000, -450], [none, none], ["Income", "Food"]⟩

/-- The summary `process_transactions` produces for `tableA`. -/
def summA : Summary :=
  ⟨50000, -450, 49550, [], [("Income", 50000), ("Food", -450)], 2⟩

/-- Scenario B of the spec: only Debit and Credit columns. -/
def tableB : RawTable :=
  ⟨["Debit", "Credit"], [[.num 100, .num 0], [.num 0, .num 500]]⟩

/-- Scenario B with a description column added, so that detection succeeds. -/
def tableBdesc : RawTable :=
  ⟨["Narration", "Debit", "Credit"],
   [[.str "row one", .num 100, .num 0], [.str "row two", .num 0, .num 500]]⟩

/-- A table whose Amount column is entirely unparseable next to Debit and
Credit columns: the debit/credit fallback applies. -/
def tableFallback : RawTable :=
  ⟨["Narration", "Amount", "Debit", "Credit"],
   [[.str "row one", .null, .num 100, .num 0], [.str "row two", .str "n/a", .num 0, .num 500]]⟩

/-- A table with one parseable date and one unparseable date. -/
def tableC4 : RawTable :=
  ⟨["Narration", "Amount", "Date"],
   [[.str "row one", .num 10, .str "2024-01-15"], [.str "row two", .num 5, .str "not a date"]]⟩

/-- A table whose dates all parse. -/
def tableC4b : RawTable :=
  ⟨["Narration", "Amount", "Date"],
   [[.str "row one", .num 10, .str "2024-01-15"], [.str "row two", .num 5, .str "2024-02-02"]]⟩

/-- The canonical dataframe for `tableC4b`. -/
def canonC4b : CanonDF :=
  ⟨["row one", "row two"], [10, 5], [some "2024-01", some "2024-02"], ["Others", "Others"]⟩

/-- The summary for `tableC4b`. -/
def summC4b : Summary :=
  ⟨15, 0, 15, [("2024-01", 10), ("2024-02", 5)], [("Others", 15)], 2⟩

/-- A table that already has a `Category` column. -/
def tableC6 : RawTable :=
  ⟨["Narration", "Amount", "Category"],
   [[.str "SALARY CREDIT", .num 100, .str "Custom"], [.str "misc", .num 5, .null]]⟩

/-- A table with neither a description-like nor an amount-like column. -/
def tableNoCols : RawTable :=
  ⟨["Foo", "Bar"], [[.num 1, .num 2]]⟩

/-- A table with no rows. -/
def tableEmpty : RawTable :=
  ⟨["Narration", "Amount"], []⟩

/-- The ordered (predicate, label) rule list of spec section 4.4, applied to
the lower-cased description: the spec-side reference formulation of the
categorizer, to be compared with `categorize`. -/
def specRules : List ((String → Bool) × String) :=
  [(fun d => containsSub d "salary", "Income"),
   (fun d => containsSub d "fuel" || containsSub d "diesel", "Fuel"),
   (fun d => containsSub d "zomato" || containsSub d "swiggy" || containsSub d "restaurant", "Food"),
   (fun d => containsSub d "amazon" || containsSub d "flipkart", "Shopping"),
   (fun d => containsSub d "mutual fund" || containsSub d "sip", "Investments"),
   (fun d => containsSub d "upi" || containsSub d "transfer" || containsSub d "google pay" || containsSub d "gpay", "Transfers")]

/-- Evaluate an ordered decision list top to bottom, first match wins,
default label "Others". -/
def applyRules : List ((String → Bool) × String) → String → String
  | [], _ => "Others"
  | (p, lbl) :: rest, d => if p d then lbl else applyRules rest d

/-- Spec-side categorizer: the ordered case-insensitive substring decision
list, with a missing description classified as "Others". -/
def specCategorize (desc : Option String) : String :=
  match desc with
  | none => "Others"
  | some s => applyRules specRules (strLower s)

/-- Is an `Except` value a success? -/
def exceptIsOk {ε α : Type} : Except ε α → Bool
  | .ok _ => true
  | .error _ => false

deriving instance DecidableEq for Except

unseal Rat.add Rat.sub Rat.mul Rat.inv

theorem foldl_pick_ne_none (p : String → Bool) (l : List String) (init : Option String) :
    (l.foldl (fun acc c => if p c then some c else acc) init) ≠ none ↔
      (init ≠ none ∨ ∃ c ∈ l, p c = true) := by
  induction l generalizing init with
  | nil => simp
  | cons x xs ih =>
    simp only [List.foldl_cons]
    rw [ih]
    by_cases hx : p x = true
    · simp [hx]
    · simp [hx]

theorem sum_fiberSum (ks : List String) (l : List (String × Rat))
    (hnd : ks.Nodup) (hcov : ∀ p ∈ l, p.1 ∈ ks) :
    (ks.map (fiberSum l)).sum = (l.map Prod.snd).sum := by
  induction ks generalizing l with
  | nil =>
    cases l with
    | nil => simp
    | cons p tl => exact absurd (hcov p (List.mem_cons_self _ _)) (List.not_mem_nil _)
  | cons k ks ih =>
    have hperm : List.Perm (l.filter (fun p => p.1 == k) ++ l.filter (fun p => !(p.1 == k))) l :=
      List.filter_append_perm (fun p => p.1 == k) l
    have hsum : (l.map Prod.snd).sum =
        fiberSum l k + ((l.filter (fun p => !(p.1 == k))).map Prod.snd).sum := by
      rw [← (hperm.map Prod.snd).sum_eq, List.map_append, List.sum_append]; rfl
    have hnotmem : k ∉ ks := (List.nodup_cons.mp hnd).1
    have hfib : ∀ k2 ∈ ks, fiberSum l k2 = fiberSum (l.filter (fun p => !(p.1 == k))) k2 := by
      intro k2 hk2
      have hne : k2 ≠ k := fun h => hnotmem (h ▸ hk2)
      unfold fiberSum
      rw [List.filter_filter]
      congr 1
      congr 1
      apply List.filter_congr
      intro p _
      by_cases h : p.1 = k2
      · have hpk : (p.1 == k) = false := by
          rw [h]
          exact beq_eq_false_iff_ne.mpr hne
        simp only [h, hpk]
        simp [hne]
      · simp [h]
    have hcov2 : ∀ p ∈ l.filter (fun p => !(p.1 == k)), p.1 ∈ ks := by
      intro p hp
      rcases List.mem_filter.mp hp with ⟨hpl, hpk⟩
      have := hcov p hpl
      rcases List.mem_cons.mp this with h | h
      · exfalso
        simp [h] at hpk
      · exact h
    calc ((k :: ks).map (fiberSum l)).sum
        = fiberSum l k + (ks.map (fiberSum l)).sum := by simp
      _ = fiberSum l k + (ks.map (fiberSum (l.filter (fun p => !(p.1 == k))))).sum := by
          rw [List.map_congr_left hfib]
      _ = fiberSum l k + ((l.filter (fun p => !(p.1 == k))).map Prod.snd).sum := by
          rw [ih _ (List.nodup_cons.mp hnd).2 hcov2]
      _ = (l.map Prod.snd).sum := hsum.symm

theorem groupSum_sum (l : List (String × Rat)) :
    ((groupSum l).map Prod.snd).sum = (l.map Prod.snd).sum := by
  unfold groupSum
  rw [List.map_map]
  have h := sum_fiberSum ((l.map Prod.fst).dedup) l (List.nodup_dedup _)
    (fun p hp => List.mem_dedup.mpr (List.mem_map_of_mem Prod.fst hp))
  simpa using h


theorem sum_pos_add_sum_neg (l : List Rat) :
    (l.filter (fun q => decide (0 < q))).sum + (l.filter (fun q => decide (q < 0))).sum = l.sum := by
  induction l with
  | nil => simp
  | cons q t ih =>
    by_cases h0 : 0 < q
    · have h1 : ¬ q < 0 := by linarith
      simp only [List.filter_cons, decide_eq_true_eq, h0, if_true, h1, if_false]
      simp only [List.sum_cons]
      rw [add_assoc, ih]
    · by_cases h1 : q < 0
      · simp only [List.filter_cons, decide_eq_true_eq, h0, if_false, h1, if_true]
        simp only [List.sum_cons]
        rw [add_left_comm, ih]
      · have hq : q = 0 := le_antisymm (not_lt.mp h0) (not_lt.mp h1)
        simp only [List.filter_cons, decide_eq_true_eq, h0, if_false, h1, if_false]
        rw [ih, List.sum_cons, hq, zero_add]

theorem resolveAmounts_length (cols : List String) (rows : List (List Cell)) (a : String) :
    (resolveAmounts cols rows a).length = rows.length := by
  unfold resolveAmounts
  cases hd : debitColOf cols <;> cases hc : creditColOf cols <;> simp only [hd, hc]
  · simp
  · simp
  · simp
  · split <;> simp

theorem deriveMonths_length (cols : List String) (rows : List (List Cell)) (dc? : Option String) :
    (deriveMonths cols rows dc?).length = rows.length := by
  unfold deriveMonths
  cases dc? with
  | none => cases h : dateFallbackCol cols <;> simp [h]
  | some dc =>
    by_cases hin : dc ∈ cols
    · simp [hin]
    · cases h : dateFallbackCol cols <;> simp [hin, h]

theorem monthPairs_all_some (months : List (Option String)) (amounts : List Rat)
    (hlen : months.length = amounts.length) (hall : ∀ m ∈ months, m.isSome = true) :
    (monthPairs months amounts).map Prod.snd = amounts := by
  induction months generalizing amounts with
  | nil =>
    cases amounts with
    | nil => simp [monthPairs]
    | cons a t => simp at hlen
  | cons m mt ih =>
    cases amounts with
    | nil => simp at hlen
    | cons a at2 =>
      have hm : m.isSome = true := hall m (List.mem_cons_self _ _)
      rcases Option.isSome_iff_exists.mp hm with ⟨ms, rfl⟩
      have ht : (monthPairs mt at2).map Prod.snd = at2 :=
        ih at2 (by simpa using hlen) (fun x hx => hall x (List.mem_cons_of_mem _ hx))
      simp only [monthPairs, List.zip_cons_cons, List.filterMap_cons] at ht ⊢
      simpa using ht


theorem process_ok_inv (t : RawTable) (out : CanonDF × Summary)
    (h : process_transactions t = .ok out) :
    ∃ cols rows d a dc?, out = buildOut cols rows d a dc? := by
  unfold process_transactions at h
  split at h
  · simp at h
  · simp only [] at h
    split at h
    · split at h
      · simp at h
      · injection h with h
        exact ⟨_, _, _, _, _, h.symm⟩
    · simp at h

theorem buildOut_fields (cols : List String) (rows : List (List Cell)) (d a : String)
    (dc? : Option String) :
    (buildOut cols rows d a dc?).1.amounts = resolveAmounts cols rows a ∧
    (buildOut cols rows d a dc?).1.months = deriveMonths cols rows dc? ∧
    (buildOut cols rows d a dc?).2.total_income
      = ((buildOut cols rows d a dc?).1.amounts.filter (fun q => decide (0 < q))).sum ∧
    (buildOut cols rows d a dc?).2.total_expense
      = ((buildOut cols rows d a dc?).1.amounts.filter (fun q => decide (q < 0))).sum ∧
    (buildOut cols rows d a dc?).2.net_balance = (buildOut cols rows d a dc?).1.amounts.sum ∧
    (buildOut cols rows d a dc?).2.monthly_summary
      = groupSum (monthPairs (buildOut cols rows d a dc?).1.months (buildOut cols rows d a dc?).1.amounts) ∧
    (buildOut cols rows d a dc?).2.category_summary
      = groupSum ((buildOut cols rows d a dc?).1.categories.zip (buildOut cols rows d a dc?).1.amounts) :=
  ⟨rfl, rfl, rfl, rfl, rfl, rfl, rfl⟩

theorem buildOut_category_sum (cols : List String) (rows : List (List Cell)) (d a : String)
    (dc? : Option String) :
    (((buildOut cols rows d a dc?).2.category_summary.map Prod.snd).sum)
      = (buildOut cols rows d a dc?).2.net_balance := by
  have hcat : (buildOut cols rows d a dc?).2.category_summary
      = groupSum ((buildOut cols rows d a dc?).1.categories.zip (buildOut cols rows d a dc?).1.amounts) := rfl
  have hnet : (buildOut cols rows d a dc?).2.net_balance = (buildOut cols rows d a dc?).1.amounts.sum := rfl
  have hlen : (buildOut cols rows d a dc?).1.categories.length
      = (buildOut cols rows d a dc?).1.amounts.length := by
    show (List.map _ (List.map _ rows)).length = (resolveAmounts cols rows a).length
    rw [List.length_map, List.length_map, resolveAmounts_length]
  rw [hcat, hnet, groupSum_sum, List.map_snd_zip _ _ (le_of_eq hlen.symm)]

theorem buildOut_income_expense (cols : List String) (rows : List (List Cell)) (d a : String)
    (dc? : Option String) :
    (buildOut cols rows d a dc?).2.total_income + (buildOut cols rows d a dc?).2.total_expense
      = (buildOut cols rows d a dc?).2.net_balance :=
  sum_pos_add_sum_neg _

theorem buildOut_monthly_sum (cols : List String) (rows : List (List Cell)) (d a : String)
    (dc? : Option String) :
    (((buildOut cols rows d a dc?).2.monthly_summary.map Prod.snd).sum)
      = ((monthPairs (buildOut cols rows d a dc?).1.months (buildOut cols rows d a dc?).1.amounts).map Prod.snd).sum :=
  groupSum_sum _

theorem buildOut_lengths (cols : List String) (rows : List (List Cell)) (d a : String)
    (dc? : Option String) :
    (buildOut cols rows d a dc?).1.months.length = (buildOut cols rows d a dc?).1.amounts.length := by
  show (deriveMonths cols rows dc?).length = (resolveAmounts cols rows a).length
  rw [deriveMonths_length, resolveAmounts_length]



/-! ### Claim theorems -/

/-- C1: the debit/credit fallback in amount resolution activates only when
columns named exactly "debit" and exactly "credit" (case-insensitive) both
exist and coercing the detected primary amount column produced a missing
value for every row; in that case each row gets credit minus debit with
missing cells treated as 0, and whenever the primary amount column yields
at least one parseable value (or one of the two columns is absent) the
primary amounts are kept and never overwritten by the fallback. -/
theorem spec_C1_fallback_gate (cols : List String) (rows : List (List Cell)) (a : String) :
    (∀ dc cc, debitColOf cols = some dc → creditColOf cols = some cc →
      (rows.map (fun r => toNumeric (getCell cols r a))).all Option.isNone = true →
      resolveAmounts cols rows a
        = rows.map (fun r => (toNumeric (getCell cols r cc)).getD 0
            - (toNumeric (getCell cols r dc)).getD 0))
    ∧ ((∃ r ∈ rows, (toNumeric (getCell cols r a)).isSome = true) →
      resolveAmounts cols rows a = rows.map (fun r => (toNumeric (getCell cols r a)).getD 0))
    ∧ ((debitColOf cols = none ∨ creditColOf cols = none) →
      resolveAmounts cols rows a = rows.map (fun r => (toNumeric (getCell cols r a)).getD 0))
    ∧ ((debitColOf cols).isSome = true ↔ ∃ c ∈ cols, strLower c = "debit")
    ∧ ((creditColOf cols).isSome = true ↔ ∃ c ∈ cols, strLower c = "credit") := by
  refine ⟨?_, ?_, ?_, ?_, ?_⟩
  · intro dc cc hdc hcc hall
    unfold resolveAmounts
    simp only [hdc, hcc, hall, if_true]
    rw [List.map_map]
    apply List.map_congr_left
    intro r _
    simp
  · rintro ⟨r, hr, hsome⟩
    have hfalse : (rows.map (fun r => toNumeric (getCell cols r a))).all Option.isNone = false := by
      rw [List.all_eq_false]
      refine ⟨toNumeric (getCell cols r a), List.mem_map_of_mem _ hr, ?_⟩
      intro hn
      rw [Option.isNone_iff_eq_none.mp hn] at hsome
      simp at hsome
    unfold resolveAmounts
    cases hd : debitColOf cols <;> cases hc : creditColOf cols <;>
      simp only [hd, hc, hfalse, Bool.false_eq_true, if_false] <;>
      (rw [List.map_map]; rfl)
  · intro hnone
    unfold resolveAmounts
    rcases hnone with h | h <;> rw [h]
    · cases creditColOf cols <;> (rw [List.map_map]; rfl)
    · cases debitColOf cols <;> (rw [List.map_map]; rfl)
  · have h := foldl_pick_ne_none (fun c => strLower c == "debit") cols none
    rw [Option.isSome_iff_ne_none]
    unfold debitColOf
    rw [h]
    simp
  · have h := foldl_pick_ne_none (fun c => strLower c == "credit") cols none
    rw [Option.isSome_iff_ne_none]
    unfold creditColOf
    rw [h]
    simp

/-- Witness for C1: on a table whose Amount column is entirely unparseable
next to exact Debit and Credit columns the fallback formula is used, and on
a table whose Debit column doubles as the detected amount column with
parseable values the primary amounts are kept. -/
theorem spec_C1_fallback_gate_witness :
    resolveAmounts ["Debit", "Credit", "Amount"]
        [[.num 100, .num 0, .null], [.num 0, .num 500, .str "n/a"]] "Amount"
      = [[Cell.num 100, Cell.num 0, Cell.null], [Cell.num 0, Cell.num 500, Cell.str "n/a"]].map
          (fun r => (toNumeric (getCell ["Debit", "Credit", "Amount"] r "Credit")).getD 0
            - (toNumeric (getCell ["Debit", "Credit", "Amount"] r "Debit")).getD 0)
    ∧ resolveAmounts ["Narration", "Debit", "Credit"]
        [[.str "row one", .num 100, .num 0], [.str "row two", .num 0, .num 500]] "Debit"
      = [[Cell.str "row one", Cell.num 100, Cell.num 0],
         [Cell.str "row two", Cell.num 0, Cell.num 500]].map
          (fun r => (toNumeric (getCell ["Narration", "Debit", "Credit"] r "Debit")).getD 0) := by
  constructor
  · exact (spec_C1_fallback_gate ["Debit", "Credit", "Amount"]
      [[.num 100, .num 0, .null], [.num 0, .num 500, .str "n/a"]] "Amount").1
      "Debit" "Credit" (by decide) (by decide) (by decide)
  · exact (spec_C1_fallback_gate ["Narration", "Debit", "Credit"]
      [[.str "row one", .num 100, .num 0], [.str "row two", .num 0, .num 500]] "Debit").2.1
      ⟨[Cell.str "row one", Cell.num 100, Cell.num 0], by decide, by decide⟩

/-- C2 counterexample: on the table whose only columns are Debit and Credit,
normalization does not produce the amounts [-100, 500]; it fails outright
with the missing-columns error, because no description-like column exists. -/
theorem spec_C2_scenarioB_cex :
    process_transactions tableB = .error (.missingColumns ["Debit", "Credit"])
    ∧ (process_transactions tableB).map (fun p => p.1.amounts) ≠ .ok [-100, 500] := by
  constructor
  · decide
  · decide

/-- C2 amended: the Debit/Credit-only table is rejected with the
missing-columns error listing [Debit, Credit] (no description-like column);
and even when a description column is added so that detection succeeds, the
amount detector selects the Debit column (exact match), whose values parse,
so the fallback does not fire and the amounts are [100, 0], not [-100, 500]. -/
theorem spec_C2_scenarioB_amended :
    process_transactions tableB = .error (.missingColumns ["Debit", "Credit"])
    ∧ (_detect_columns ["Narration", "Debit", "Credit"]).2.1 = some "Debit"
    ∧ (process_transactions tableBdesc).map (fun p => p.1.amounts) = .ok [100, 0]
    ∧ ([100, 0] : List Rat) ≠ [-100, 500] := by
  refine ⟨by decide, by decide, by decide, by decide⟩

/-- C3: for every successfully normalized table, total_income is the sum of
the strictly positive amounts, total_expense the sum of the strictly
negative amounts (kept negative), net_balance the sum of all amounts, the
category_summary values sum to net_balance, and total_income plus
total_expense equals net_balance. -/
theorem spec_C3_summary_sums (t : RawTable) (c : CanonDF) (s : Summary)
    (h : process_transactions t = .ok (c, s)) :
    s.total_income = (c.amounts.filter (fun q => decide (0 < q))).sum
    ∧ s.total_expense = (c.amounts.filter (fun q => decide (q < 0))).sum
    ∧ s.net_balance = c.amounts.sum
    ∧ (s.category_summary.map Prod.snd).sum = s.net_balance
    ∧ s.total_income + s.total_expense = s.net_balance := by
  obtain ⟨cols, rows, d, a, dc?, hout⟩ := process_ok_inv t (c, s) h
  have hc : c = (buildOut cols rows d a dc?).1 := congrArg Prod.fst hout
  have hs : s = (buildOut cols rows d a dc?).2 := congrArg Prod.snd hout
  subst hc
  subst hs
  exact ⟨rfl, rfl, rfl, buildOut_category_sum _ _ _ _ _, buildOut_income_expense _ _ _ _ _⟩

/-- Witness for C3, instantiated at the Scenario A table. -/
theorem spec_C3_summary_sums_witness :
    summA.total_income = (canonA.amounts.filter (fun q => decide (0 < q))).sum
    ∧ summA.total_expense = (canonA.amounts.filter (fun q => decide (q < 0))).sum
    ∧ summA.net_balance = canonA.amounts.sum
    ∧ (summA.category_summary.map Prod.snd).sum = summA.net_balance
    ∧ summA.total_income + summA.total_expense = summA.net_balance :=
  spec_C3_summary_sums tableA canonA summA (by decide)


/-- C4 counterexample: on a table with one parseable and one unparseable
date, the monthly summary is present (the date column was detected and the
first row carries a valid month) but its values sum to 10 while net_balance
is 15, because the second row is excluded from the monthly breakdown yet
still contributes to net_balance. -/
theorem spec_C4_monthly_cex :
    (process_transactions tableC4).map
        (fun p => (p.1.months, (p.2.monthly_summary.map Prod.snd).sum, p.2.net_balance))
      = .ok ([some "2024-01", none], 10, 15)
    ∧ ((10 : Rat) ≠ 15) := by
  constructor
  · decide
  · decide

/-- C4 amended: for every successfully normalized table, the monthly summary
values sum to the sum of the amounts of exactly the rows that carry a
parseable date; this equals net_balance when every row has a parseable
date (rows with unparseable dates are excluded from the monthly breakdown
while still contributing to net_balance, so the two sums differ by their
amounts in general). -/
theorem spec_C4_monthly_amended (t : RawTable) (c : CanonDF) (s : Summary)
    (h : process_transactions t = .ok (c, s)) :
    (s.monthly_summary.map Prod.snd).sum
        = ((monthPairs c.months c.amounts).map Prod.snd).sum
    ∧ ((∀ m ∈ c.months, m.isSome = true) →
        (s.monthly_summary.map Prod.snd).sum = s.net_balance) := by
  obtain ⟨cols, rows, d, a, dc?, hout⟩ := process_ok_inv t (c, s) h
  have hc : c = (buildOut cols rows d a dc?).1 := congrArg Prod.fst hout
  have hs : s = (buildOut cols rows d a dc?).2 := congrArg Prod.snd hout
  subst hc
  subst hs
  refine ⟨buildOut_monthly_sum _ _ _ _ _, ?_⟩
  intro hall
  rw [buildOut_monthly_sum _ _ _ _ _,
    monthPairs_all_some _ _ (buildOut_lengths _ _ _ _ _) hall]
  rfl

/-- Witness for C4 amended, instantiated at a table whose dates all parse. -/
theorem spec_C4_monthly_amended_witness :
    (summC4b.monthly_summary.map Prod.snd).sum
        = ((monthPairs canonC4b.months canonC4b.amounts).map Prod.snd).sum
    ∧ (summC4b.monthly_summary.map Prod.snd).sum = summC4b.net_balance := by
  have h := spec_C4_monthly_amended tableC4b canonC4b summC4b (by decide)
  exact ⟨h.1, h.2 (by decide)⟩

/-- C5: the categorizer agrees with the ordered, case-insensitive
first-match-wins substring decision list of the spec on every description,
a missing description classifies as Others, and on the Scenario A table the
two rows categorize as Income and Food with net_balance 49550. -/
theorem spec_C5_categorizer :
    (∀ desc, categorize desc = specCategorize desc)
    ∧ categorize none = "Others"
    ∧ (process_transactions tableA).map (fun p => (p.1.categories, p.2.net_balance))
        = .ok (["Income", "Food"], 49550) := by
  refine ⟨?_, rfl, by decide⟩
  intro desc
  cases desc <;> rfl

/-- C6: evaluation of the embedded code at a failing input.  Any table that
already has a Category column is rejected: line 144 calls
Series.replace with a scalar to_replace and a Series value, which pandas
refuses with a ValueError before replacing anything, so the upload returns
a 400 error instead of keeping the non-empty category values verbatim. -/
theorem spec_C6_category_bug :
    process_transactions tableC6 = .error .categoryReplaceBug
    ∧ (upload_excel ⟨some "stmt.csv", tableC6, true, true, true⟩ none).resp
        = .err 400 (procErrorMsg .categoryReplaceBug) := by
  constructor
  · decide
  · decide

/-- C7: a non-empty table for which the description or the amount column
cannot be resolved is rejected with the error listing all (stripped) column
names present; an empty table is rejected with the empty-input error; and
when both columns resolve on a non-empty table without a Category column,
processing succeeds whether or not any date column exists. -/
theorem spec_C7_detection_errors (t : RawTable) :
    (t.rows ≠ [] → t.cols ≠ [] →
      ((_detect_columns (t.cols.map strTrim)).1 = none
        ∨ (_detect_columns (t.cols.map strTrim)).2.1 = none) →
      process_transactions t = .error (.missingColumns (t.cols.map strTrim)))
    ∧ (t.rows = [] → process_transactions t = .error .emptyFile)
    ∧ (∀ d a, (_detect_columns (t.cols.map strTrim)).1 = some d →
        (_detect_columns (t.cols.map strTrim)).2.1 = some a →
        t.rows ≠ [] → (t.cols.map strTrim).contains "Category" = false →
        exceptIsOk (process_transactions t) = true) := by
  refine ⟨?_, ?_, ?_⟩
  · intro hr hc hdet
    have hempty : (t.rows.isEmpty || t.cols.isEmpty) = false := by
      simp [List.isEmpty_iff, hr, hc]
    unfold process_transactions
    cases h1 : (_detect_columns (t.cols.map strTrim)).1 with
    | none =>
      cases h2 : (_detect_columns (t.cols.map strTrim)).2.1 <;> simp [hempty, h1, h2]
    | some d =>
      cases h2 : (_detect_columns (t.cols.map strTrim)).2.1 with
      | none => simp [hempty, h1, h2]
      | some a =>
        exfalso
        rcases hdet with hx | hx
        · rw [h1] at hx
          cases hx
        · rw [h2] at hx
          cases hx
  · intro hr
    unfold process_transactions
    simp [hr]
  · intro d a hd ha hr hcat
    have hcols : t.cols ≠ [] := by
      intro hnil
      rw [hnil] at hd
      have : (_detect_columns (([] : List String).map strTrim)).1 = none := by decide
      rw [this] at hd
      cases hd
    have hempty : (t.rows.isEmpty || t.cols.isEmpty) = false := by
      simp [List.isEmpty_iff, hr, hcols]
    have hmem : "Category" ∉ t.cols.map strTrim := by simpa using hcat
    have hcat2 : ¬ ∃ c ∈ t.cols, strTrim c = "Category" := by
      rintro ⟨c, hcm, hce⟩
      exact hmem (List.mem_map.mpr ⟨c, hcm, hce⟩)
    unfold process_transactions
    simp [hempty, hd, ha, hcat2, exceptIsOk]

/-- Witness for C7: a Foo/Bar table is rejected listing its columns, an
empty table is rejected with the empty-input error, and the Scenario A
table (which has no date column) processes successfully. -/
theorem spec_C7_detection_errors_witness :
    process_transactions tableNoCols = .error (.missingColumns ["Foo", "Bar"])
    ∧ process_transactions tableEmpty = .error .emptyFile
    ∧ exceptIsOk (process_transactions tableA) = true := by
  refine ⟨?_, ?_, ?_⟩
  · exact (spec_C7_detection_errors tableNoCols).1 (by decide) (by decide) (Or.inl (by decide))
  · exact (spec_C7_detection_errors tableEmpty).2.1 rfl
  · exact (spec_C7_detection_errors tableA).2.2 "Narration" "Amount"
      (by decide) (by decide) (by decide) (by decide)


/-- C8 counterexample: an upload whose processing succeeds but whose
persistence of the dataset fails reports success while the store still
holds no dataset, so an outcome can report success without the store
holding the new dataset. -/
theorem spec_C8_atomicity_cex :
    respIsOk (upload_excel ⟨some "a.csv", tableA, true, true, false⟩ none).resp = true
    ∧ (upload_excel ⟨some "a.csv", tableA, true, true, false⟩ none).store = none := by
  constructor
  · decide
  · decide

/-- C8 amended: every upload that surfaces an error leaves the store
unchanged, and every accepted upload whose processing succeeds either
replaces the store with the new dataset and reports success (when
persistence succeeds), or — because the persistence failure is caught,
logged and swallowed — still reports success while the store keeps its
previous content. -/
theorem spec_C8_atomicity_amended (req : UploadReq) (store0 : Option CanonDF)
    (df : CanonDF) (s : Summary) :
    (respIsOk (upload_excel req store0).resp = false →
      (upload_excel req store0).store = store0)
    ∧ (req.readOk = true → process_transactions req.table = .ok (df, s) →
        hasAllowedExt (req.filename.getD "uploaded_file") = true → req.saveOk = true →
        ((req.pickleOk = true →
            (upload_excel req store0).resp = .ok s
            ∧ (upload_excel req store0).store = some df)
         ∧ (req.pickleOk = false →
            (upload_excel req store0).resp = .ok s
            ∧ (upload_excel req store0).store = store0))) := by
  obtain ⟨fn, tbl, ro, so, po⟩ := req
  constructor
  · intro hfail
    unfold upload_excel at hfail ⊢
    by_cases hext : hasAllowedExt (fn.getD "uploaded_file") = true
    · by_cases hso : so = true
      · simp only [hext, hso, Bool.not_true, Bool.false_eq_true, if_false] at hfail ⊢
        cases hpr : (if ro = true then process_transactions tbl else .error .readFailed) with
        | error e => simp [hpr]
        | ok pair =>
          obtain ⟨pdf, ps⟩ := pair
          simp only [hpr] at hfail ⊢
          cases po <;> simp_all [respIsOk]
      · have hso2 : so = false := by
          cases so
          · rfl
          · exact absurd rfl hso
        simp [hext, hso2]
    · have hext2 : hasAllowedExt (fn.getD "uploaded_file") = false := by
        cases h : hasAllowedExt (fn.getD "uploaded_file")
        · rfl
        · exact absurd h hext
      simp [hext2]
  · intro hro hpr hext hso
    have hro2 : ro = true := hro
    have hso2 : so = true := hso
    have hext2 : hasAllowedExt (fn.getD "uploaded_file") = true := hext
    have hpr2 : process_transactions tbl = .ok (df, s) := hpr
    unfold upload_excel
    constructor
    · intro hpo
      have hpo2 : po = true := hpo
      subst hro2
      subst hso2
      subst hpo2
      simp [hext2, hpr2]
    · intro hpo
      have hpo2 : po = false := hpo
      subst hro2
      subst hso2
      subst hpo2
      simp [hext2, hpr2]

/-- Witness for C8 amended: applied to an accepted Scenario A upload with
persistence succeeding and to the same upload with persistence failing. -/
theorem spec_C8_atomicity_amended_witness :
    ((upload_excel ⟨some "a.csv", tableA, true, true, true⟩ none).resp = .ok summA
      ∧ (upload_excel ⟨some "a.csv", tableA, true, true, true⟩ none).store = some canonA)
    ∧ ((upload_excel ⟨some "a.csv", tableA, true, true, false⟩ none).resp = .ok summA
      ∧ (upload_excel ⟨some "a.csv", tableA, true, true, false⟩ none).store = none) := by
  constructor
  · exact ((spec_C8_atomicity_amended ⟨some "a.csv", tableA, true, true, true⟩ none canonA summA).2
      rfl (by decide) (by decide) rfl).1 rfl
  · exact ((spec_C8_atomicity_amended ⟨some "a.csv", tableA, true, true, false⟩ none canonA summA).2
      rfl (by decide) (by decide) rfl).2 rfl

/-- C9 counterexample: a query issued when no prior upload has stored a
dataset does not return the not-found error when the credential is also
unconfigured: the credential check runs first and yields the 503
service-unavailable error. -/
theorem spec_C9_query_errors_cex :
    query_financial false true none true (.answer "ans") "q"
      = .err 503 "Groq API key not configured on server."
    ∧ respStatus (query_financial false true none true (.answer "ans") "q") ≠ some 404 := by
  constructor
  · rfl
  · decide

/-- C9 amended: an unconfigured credential yields 503 regardless of the
store; with the credential configured, a missing dataset yields the 404
not-found error; with a dataset stored but the model identifier
unconfigured, the RuntimeError raised inside the ask step is mapped to a
502 carrying the not-configured message (distinct from the 400 input, 404
not-found and 503 statuses); and on success the question is echoed back
alongside the answer. -/
theorem spec_C9_query_errors_amended (mo ro : Bool) (st : Option CanonDF) (df : CanonDF)
    (llm : LLMOutcome) (q ans : String) :
    respStatus (query_financial false mo st ro llm q) = some 503
    ∧ respStatus (query_financial true mo none ro llm q) = some 404
    ∧ query_financial true false (some df) true llm q = .err 502 notConfiguredMsg
    ∧ query_financial true true (some df) true (.answer ans) q = .ok (q, ans) := by
  refine ⟨rfl, rfl, rfl, rfl⟩

/-- C10 counterexample: an upload with no client filename is not written to
uploads/uploaded_file; the defaulted name fails the extension gate, so the
request is rejected with a 400 and no write occurs. -/
theorem spec_C10_savepath_cex :
    (upload_excel ⟨none, tableA, true, true, true⟩ none).written = none
    ∧ (upload_excel ⟨none, tableA, true, true, true⟩ none).resp
        = .err 400 "Unsupported file type. Upload .xlsx, .xls, or .csv"
    ∧ savePathOf none = "uploads/uploaded_file"
    ∧ ((none : Option String) ≠ some "uploads/uploaded_file") := by
  refine ⟨by decide, by decide, by decide, by decide⟩

/-- C10 amended: every upload whose (defaulted) filename passes the
extension gate and whose save succeeds writes to exactly
os.path.join("uploads", filename) with the filename taken verbatim and
unsanitized; an upload failing the gate (including the defaulted name
uploaded_file) writes nothing and gets a 400; and a filename with
parent-directory components or an absolute path yields a write location
outside the uploads directory, as the concrete traversal examples show. -/
theorem spec_C10_savepath_amended (req : UploadReq) (store0 : Option CanonDF) :
    (hasAllowedExt (req.filename.getD "uploaded_file") = true → req.saveOk = true →
      (upload_excel req store0).written = some (savePathOf req.filename))
    ∧ (hasAllowedExt (req.filename.getD "uploaded_file") = false →
      (upload_excel req store0).written = none
      ∧ respStatus (upload_excel req store0).resp = some 400)
    ∧ hasAllowedExt "uploaded_file" = false
    ∧ savePathOf (some "../../secret.csv") = "uploads/../../secret.csv"
    ∧ normSegs (splitSlash (savePathOf (some "../../secret.csv"))) = ["..", "secret.csv"]
    ∧ savePathOf (some "/tmp/x.csv") = "/tmp/x.csv" := by
  obtain ⟨fn, tbl, ro, so, po⟩ := req
  refine ⟨?_, ?_, by decide, by decide, by decide, by decide⟩
  · intro hext hso
    have hso2 : so = true := hso
    have hext2 : hasAllowedExt (fn.getD "uploaded_file") = true := hext
    subst hso2
    unfold upload_excel
    cases hpr : (if ro = true then process_transactions tbl else .error .readFailed) with
    | error e => simp [hext2, hpr]
    | ok pair =>
      obtain ⟨pdf, ps⟩ := pair
      cases po <;> simp [hext2, hpr]
  · intro hext
    unfold upload_excel
    simp [hext, respStatus]

/-- Witness for C10 amended: applied to an accepted traversal filename and
to a rejected extension. -/
theorem spec_C10_savepath_amended_witness :
    (upload_excel ⟨some "../../secret.csv", tableA, true, true, true⟩ none).written
        = some (savePathOf (some "../../secret.csv"))
    ∧ ((upload_excel ⟨some "evil.exe", tableA, true, true, true⟩ none).written = none
      ∧ respStatus (upload_excel ⟨some "evil.exe", tableA, true, true, true⟩ none).resp
          = some 400) := by
  constructor
  · exact (spec_C10_savepath_amended ⟨some "../../secret.csv", tableA, true, true, true⟩ none).1
      (by decide) rfl
  · exact (spec_C10_savepath_amended ⟨some "evil.exe", tableA, true, true, true⟩ none).2.1
      (by decide)


/-- Witness for C5: the decision-list agreement instantiated at a concrete
description, plus the missing-description case. -/
theorem spec_C5_categorizer_witness :
    categorize (some "Diesel refill") = specCategorize (some "Diesel refill")
    ∧ categorize none = "Others" :=
  ⟨spec_C5_categorizer.1 (some "Diesel refill"), spec_C5_categorizer.2.1⟩

/-- Witness for C9 amended, instantiated at concrete arguments. -/
theorem spec_C9_query_errors_amended_witness :
    respStatus (query_financial false true none true (.answer "a") "q") = some 503
    ∧ respStatus (query_financial true true none true (.answer "a") "q") = some 404
    ∧ query_financial true false (some canonA) true (.answer "a") "q" = .err 502 notConfiguredMsg
    ∧ query_financial true true (some canonA) true (.answer "a") "q" = .ok ("q", "a") :=
  spec_C9_query_errors_amended true true none canonA (.answer "a") "q" "a"

end FinApp
